import Mathlib

/-!
Verification of the voice-connect gateway/orchestrator against its design
specification.  The Python sources under `src/` are shallowly embedded as
executable Lean definitions: datetimes become epoch-second integers, Python
dicts become association lists, randomness and external I/O outcomes become
explicit parameters, and exception-raising code returns `Except`.  The ASCII
fragment of Python string/regex semantics is modelled (all inputs exercised
here are ASCII).
-/

namespace VoiceConnect

/-! ### Shared types (src/shared/types.py) -/

/-- Call status enumeration (`CallStatus` in src/shared/types.py). -/
inductive CallStatus
  | active
  | escalating
  | completed
  | failed
deriving DecidableEq, Repr

/-- Escalation reason enumeration (`EscalationReason` in src/shared/types.py). -/
inductive EscalationReason
  | user_request
  | keyword_detected
  | agent_decision
  | error_reason
deriving DecidableEq, Repr

/-- Session state for an active call (`SessionState` in src/shared/types.py).
Datetimes are epoch seconds; the open `metadata` dict (string keys, the values
the code actually writes are strings) is an association list. -/
structure SessionState where
  conversation_id : String
  call_sid : String
  stream_sid : String
  caller_phone : Option String
  status : CallStatus
  start_time : Int
  last_activity : Int
  transcript_buffer : List String
  metadata : List (String × String)
deriving DecidableEq, Repr

/-- Handover payload stored in DynamoDB (`HandoverPayload` in
src/shared/types.py).  Datetimes are epoch seconds. -/
structure HandoverPayload where
  token : String
  conversation_id : String
  created_at : Int
  expires_at : Int
  caller_phone : Option String
  hubspot_contact_id : Option String
  hubspot_ticket_id : Option String
  summary : String
  intent : Option String
  priority : String
  escalation_reason : EscalationReason
deriving DecidableEq, Repr

/-- Python dict assignment `d[k] = v`: the key is (re)bound to `v`.  The new
binding shadows and drops any previous binding for `k`. -/
def dictInsert {β : Type} (k : String) (v : β) (m : List (String × β)) :
    List (String × β) :=
  (k, v) :: m.filter (fun p => p.1 != k)

/-! ### Escalation policy (src/services/orchestrator/escalation.py) -/

/-- Python regex word character (`\w`), ASCII fragment. -/
def isWordChar (c : Char) : Bool :=
  c.isAlpha || c.isDigit || c == '_'

/-- `boundedAt s i w`: the regex `\bw\b` matches the text `s` at index `i`
(`w` occurs at `i` and both neighbours, when present, are non-word chars). -/
def boundedAt (s : List Char) (i : Nat) (w : List Char) : Bool :=
  ((s.drop i).take w.length == w)
  && (i == 0 || !(isWordChar (s.getD (i - 1) ' ')))
  && !(isWordChar (s.getD (i + w.length) ' '))

/-- `re.search` of the pattern `\bw\b` in `s`. -/
def wordSearch (s w : List Char) : Bool :=
  (List.range (s.length + 1)).any (fun i => boundedAt s i w)

/-- `re.search` of the pattern `\ba\b.*\bb\b` in `s`: a bounded occurrence of
`a`, then arbitrary non-newline characters (`.` does not match a newline
without `re.DOTALL`), then a bounded occurrence of `b`. -/
def wordPairSearch (s a b : List Char) : Bool :=
  (List.range (s.length + 1)).any (fun i =>
    boundedAt s i a
    && (List.range (s.length + 1)).any (fun j =>
      decide (i + a.length ≤ j)
      && ((s.drop (i + a.length)).take (j - (i + a.length))).all (fun c => c != '\n')
      && boundedAt s j b))

/-- One entry of `ESCALATION_KEYWORDS`: either a single whole word
(`\bw\b`) or an ordered pair (`\ba\b.*\bb\b`). -/
inductive EscalationPattern
  | word (w : String)
  | wordPair (a b : String)
deriving DecidableEq, Repr

/-- The `ESCALATION_KEYWORDS` regex list from
src/services/orchestrator/escalation.py lines 12-21. -/
def ESCALATION_KEYWORDS : List EscalationPattern :=
  [ .word ("agent"),
    .word ("human"),
    .word ("representative"),
    .word ("person"),
    .word ("operator"),
    .wordPair ("help") ("real"),
    .wordPair ("speak") ("someone"),
    .wordPair ("talk") ("someone") ]

/-- Whether one escalation pattern matches the (already lowercased) text. -/
def patternMatches (s : List Char) : EscalationPattern → Bool
  | .word w => wordSearch s w.data
  | .wordPair a b => wordPairSearch s a.data b.data

/-- `str.lower()` on one character, ASCII fragment. -/
def lowerChar (c : Char) : Char :=
  if c.isUpper then Char.ofNat (c.toNat + 32) else c

/-- `transcript.lower()` as a char list (ASCII lowering). -/
def transcriptChars (t : String) : List Char :=
  t.data.map lowerChar

/-- The keyword scan at the top of `check_escalation_needed`: some pattern of
`ESCALATION_KEYWORDS` matches the lowercased transcript. -/
def escalationKeywordHit (t : String) : Bool :=
  ESCALATION_KEYWORDS.any (patternMatches (transcriptChars t))

/-- `check_escalation_needed` (src/services/orchestrator/escalation.py lines
24-56).  Returns the possibly-mutated session together with the Python
function's `(should_escalate, reason)` result.  On a keyword hit the function
returns early and the transcript buffer is left untouched; otherwise the
transcript is appended and the buffer truncated to its last 10 entries. -/
def check_escalation_needed (session : SessionState) (transcript : String) :
    SessionState × Bool × Option EscalationReason :=
  if escalationKeywordHit transcript then
    (session, true, some .keyword_detected)
  else
    ({ session with
        transcript_buffer :=
          if (session.transcript_buffer ++ [transcript]).length > 10 then
            (session.transcript_buffer ++ [transcript]).drop
              ((session.transcript_buffer ++ [transcript]).length - 10)
          else
            session.transcript_buffer ++ [transcript] },
      false, none)

/-- `int()`-style rendering used in the summary duration (nonnegative ints). -/
def intStr (n : Int) : String :=
  toString n

/-- `generate_escalation_summary` (src/services/orchestrator/escalation.py
lines 59-81) at current time `now` (epoch seconds).  The f-string is built and
`.strip()`-ed; the result below is that stripped text. -/
def generate_escalation_summary (session : SessionState) (now : Int) : String :=
  let transcript_snippets :=
    String.intercalate (" | ")
      (session.transcript_buffer.drop (session.transcript_buffer.length - 5))
  let duration_seconds : Int := now - session.start_time
  let duration_str := intStr (duration_seconds / 60) ++ ("m ") ++ intStr (duration_seconds % 60) ++ ("s")
  ("Call Duration: ") ++ duration_str
    ++ ("\nCaller: ") ++ (session.caller_phone.getD ("Unknown"))
    ++ ("\nRecent Conversation: ")
    ++ (if transcript_snippets = ("") then ("No transcript available") else transcript_snippets)
    ++ ("\nIntent: User requested human assistance")

/-! ### Token generator (src/services/orchestrator/token_generator.py) -/

/-- `generate_token(length)`: joins `length` characters picked by
`random.choices(string.digits, k=length)`.  The random source is modelled by
`choice`, giving the index into `string.digits` for each position. -/
def generate_token (length : Nat) (choice : Nat → Fin 10) : String :=
  String.mk ((List.range length).map (fun i => Nat.digitChar (choice i).val))

/-! ### Settings (src/shared/config.py, fields used by the orchestrator) -/

/-- The configuration fields the escalation path reads. -/
structure Settings where
  token_length : Nat
  token_ttl_seconds : Int
deriving DecidableEq, Repr

/-- The repository defaults: `token_length=10`, `token_ttl_seconds=600`. -/
def defaultSettings : Settings :=
  { token_length := 10, token_ttl_seconds := 600 }

/-! ### Orchestrator escalation (src/services/orchestrator/orchestrator.py) -/

/-- Outcome of the best-effort HubSpot block in `execute_escalation` (lines
83-130).  The three calls run in order inside one `try`; an exception at any
point is swallowed, leaving whichever ids were already assigned. -/
inductive CrmOutcome
  | disabled
  | allOk (contact_id ticket_id : String)
  | failAtUpsert
  | failAtTicket (contact_id : String)
  | failAtNote (contact_id ticket_id : String)
deriving DecidableEq, Repr

/-- The `(hubspot_contact_id, hubspot_ticket_id)` pair left by the CRM block. -/
def crmIds : CrmOutcome → Option String × Option String
  | .disabled => (none, none)
  | .allOk c t => (some c, some t)
  | .failAtUpsert => (none, none)
  | .failAtTicket c => (some c, none)
  | .failAtNote c t => (some c, some t)

/-- A `botocore` ClientError raised by a DynamoDB call. -/
inductive StoreErr
  | clientError
deriving DecidableEq, Repr

/-- The handover store: DynamoDB table keyed by token, holding payloads.
Serialization to the raw item (datetime↔epoch/ISO) is the identity here since
the embedding already keeps datetimes as epoch seconds. -/
def HandoverStore : Type := List (String × HandoverPayload)

/-- `Orchestrator.execute_escalation` (src/services/orchestrator/orchestrator.py
lines 49-162).  `choice` models the random source, `crm` the HubSpot outcomes,
`storeOk` whether `put_handover`'s `put_item` succeeds, `now` the current time.
On a store failure the `ClientError` propagates out of `put_handover` (lines
71-73); the error result carries the session and store as they stand at the
raise, so the embedding can speak about the state the exception leaves behind.
On success the new session, store and the returned token are produced. -/
def execute_escalation (settings : Settings) (session : SessionState)
    (reason : EscalationReason) (choice : Nat → Fin 10) (crm : CrmOutcome)
    (storeOk : Bool) (store : HandoverStore) (now : Int) :
    Except (StoreErr × SessionState × HandoverStore)
           (SessionState × HandoverStore × String) :=
  let session1 := { session with status := CallStatus.escalating }
  let token := generate_token settings.token_length choice
  let summary := generate_escalation_summary session1 now
  let ids := crmIds crm
  let expires_at := now + settings.token_ttl_seconds
  let payload : HandoverPayload :=
    { token := token
      conversation_id := session1.conversation_id
      created_at := now
      expires_at := expires_at
      caller_phone := session1.caller_phone
      hubspot_contact_id := ids.1
      hubspot_ticket_id := ids.2
      summary := summary
      intent := List.lookup ("intent") session1.metadata
      priority := (List.lookup ("priority") session1.metadata).getD ("medium")
      escalation_reason := reason }
  if storeOk then
    let store2 := dictInsert token payload store
    let session2 :=
      { session1 with
          metadata := dictInsert ("handover_token") token session1.metadata
          status := CallStatus.escalating }
    .ok (session2, store2, token)
  else
    .error (.clientError, session1, store)

/-! ### DynamoDB repository (src/services/orchestrator/dynamo_repository.py) -/

/-- `DynamoRepository.get_handover` (lines 75-110).  A `ClientError` from
`get_item` propagates (`raise`); a missing item yields `None`; a present item
whose `expires_at` lies strictly before `now` yields `None` (the explicit
read-side TTL check at lines 85-89); otherwise the payload is returned. -/
def get_handover (store : HandoverStore) (clientErr : Bool) (now : Int)
    (token : String) : Except StoreErr (Option HandoverPayload) :=
  if clientErr then
    .error .clientError
  else
    match List.lookup token store with
    | none => .ok none
    | some item => if now > item.expires_at then .ok none else .ok (some item)

/-! ### Amazon Connect Lambda (src/aws/connect_lambda/handler.py) -/

/-- JSON values: the event a Lambda receives and the attribute values of a
DynamoDB item read through `boto3`. -/
inductive JVal
  | jstr (s : String)
  | jnum (n : Int)
  | jbool (b : Bool)
  | jnull
  | jobj (fields : List (String × JVal))
  | jarr (elems : List JVal)

/-- One raw DynamoDB item as the Lambda sees it: a field map. -/
def LambdaItem : Type := List (String × JVal)

/-- The Lambda-side view of the handover table: token to raw item. -/
def LambdaStore : Type := List (String × LambdaItem)

/-- Python `str.strip()` (ASCII whitespace fragment). -/
def pyStrip (s : String) : String :=
  String.mk
    (((s.data.dropWhile Char.isWhitespace).reverse.dropWhile Char.isWhitespace).reverse)

/-- ASCII digit test, the `\d` of the token pattern (ASCII fragment). -/
def isAsciiDigit (c : Char) : Bool :=
  c.isDigit

/-- `validate_token` (src/aws/connect_lambda/handler.py lines 61-74): empty
strings are rejected, then `bool(re.match(r"^\d{10}$", token))`.  Python
`re.match` anchors at the start only, and `$` matches at the end of the string
or just before a trailing newline — so 10 digits optionally followed by one
final newline are accepted. -/
def validate_token (token : String) : Bool :=
  if token = ("") then
    false
  else
    (token.data.take 10).length == 10
    && (token.data.take 10).all isAsciiDigit
    && (token.data.drop 10 == [] || token.data.drop 10 == ['\n'])

/-- The spec reading of the token format: exactly 10 ASCII digits. -/
def isExactlyTenDigits (token : String) : Bool :=
  token.data.length == 10 && token.data.all isAsciiDigit

/-- `fetch_handover_payload` (src/aws/connect_lambda/handler.py lines 77-101).
A `ClientError` is caught and becomes `None`; an absent or empty (falsy) item
becomes `None`; otherwise the raw item is returned.  Note: no expiry check —
the function trusts the store's TTL purge. -/
def fetch_handover_payload (store : LambdaStore) (clientErr : Bool)
    (token : String) : Option LambdaItem :=
  if clientErr then
    none
  else
    match List.lookup token store with
    | none => none
    | some item => if item.isEmpty then none else some item

/-- The token-extraction `try` block of `lambda_handler` (lines 117-135):
`event.get("Details", {}).get("Parameters", {}).get("token", "").strip()`.
Calling `.get` on a non-dict or `.strip()` on a non-string raises and is
caught, producing the "Invalid event format" path (modelled as `.error`). -/
def extract_token (event : JVal) : Except Unit String :=
  match event with
  | .jobj fs =>
    match (List.lookup ("Details") fs).getD (.jobj []) with
    | .jobj ds =>
      match (List.lookup ("Parameters") ds).getD (.jobj []) with
      | .jobj ps =>
        match (List.lookup ("token") ps).getD (.jstr ("")) with
        | .jstr t => .ok (pyStrip t)
        | _ => .error ()
      | _ => .error ()
    | _ => .error ()
  | _ => .error ()

/-- `payload.get(k, "")` on a raw item. -/
def itemGet (item : LambdaItem) (k : String) : JVal :=
  (List.lookup k item).getD (.jstr (""))

/-- `payload.get("priority", "medium")`. -/
def itemGetPriority (item : LambdaItem) : JVal :=
  (List.lookup ("priority") item).getD (.jstr ("medium"))

/-- `lambda_handler` (src/aws/connect_lambda/handler.py lines 104-168) as the
dict it returns.  Every path returns a dict; nothing escapes. -/
def lambda_handler (event : JVal) (store : LambdaStore) (clientErr : Bool) :
    List (String × JVal) :=
  match extract_token event with
  | .error _ =>
    [ (("success"), .jbool false),
      (("error_message"), .jstr ("Invalid event format")),
      (("route_to_queue"), .jstr ("fallback")) ]
  | .ok token =>
    if token = ("") then
      [ (("success"), .jbool false),
        (("error_message"), .jstr ("No token provided")),
        (("route_to_queue"), .jstr ("fallback")) ]
    else if !(validate_token token) then
      [ (("success"), .jbool false),
        (("error_message"), .jstr ("Invalid token format")),
        (("route_to_queue"), .jstr ("fallback")) ]
    else
      match fetch_handover_payload store clientErr token with
      | none =>
        [ (("success"), .jbool false),
          (("error_message"), .jstr ("Token not found or expired")),
          (("route_to_queue"), .jstr ("fallback")) ]
      | some payload =>
        [ (("success"), .jbool true),
          (("conversation_id"), itemGet payload ("conversation_id")),
          (("caller_phone"), itemGet payload ("caller_phone")),
          (("hubspot_contact_id"), itemGet payload ("hubspot_contact_id")),
          (("hubspot_ticket_id"), itemGet payload ("hubspot_ticket_id")),
          (("summary"), itemGet payload ("summary")),
          (("intent"), itemGet payload ("intent")),
          (("priority"), itemGetPriority payload),
          (("escalation_reason"), itemGet payload ("escalation_reason")),
          (("route_to_queue"), .jstr ("escalation")) ]

/-! ### Stream handler (src/services/gateway/stream_handler.py) -/

/-- A parsed inbound Twilio frame, as `_handle_twilio_to_openai` dispatches on
`message.get("event")` after `json.loads`; `malformed` is a frame whose JSON
decoding fails (logged and skipped). -/
inductive TwilioFrame
  | connected
  | start (streamSid callSid fromPhone : String)
  | media (streamSid : String) (payload : Option String)
  | stop (streamSid : String)
  | other (event : String)
  | malformed
deriving DecidableEq, Repr

/-- Externally visible actions of the stream handler, in order.  The
constructors cover everything `handle_stream` and `_cleanup` can do to its
collaborators, including session-registry removal — which the handler never
performs (stream_handler.py holds no reference to the session manager). -/
inductive Action
  | connect
  | sendAudio (payload : String)
  | cancelPendingTask
  | awaitCancelled
  | closeClient
  | flushTrace
  | removeSession (streamSid : String)
deriving DecidableEq, Repr

/-- `_handle_twilio_to_openai` (lines 87-128) with `_iter_twilio_messages`
(lines 130-140): consume frames while `_running`; a "media" frame with a
truthy payload is forwarded via `send_audio_base64`; a "stop" frame clears
`_running` and breaks; "start", unknown and malformed frames are skipped.
Returns the voice-client calls made and the final `_running` flag. -/
def twilioLoop : Bool → List TwilioFrame → List Action × Bool
  | false, _ => ([], false)
  | true, [] => ([], true)
  | true, f :: fs =>
    match f with
    | .stop _ => ([], false)
    | .media _ (some p) =>
      if p = ("") then twilioLoop true fs
      else
        let rest := twilioLoop true fs
        (Action.sendAudio p :: rest.1, rest.2)
    | _ => twilioLoop true fs

/-- `handle_stream` (lines 47-85) for the run in which the AI-side event
stream stays silent and the Twilio-side task finishes first (the claimed
scenario): connect, run the Twilio loop, cancel the pending AI-side task and
await its cancellation, then `_cleanup` (lines 312-324) — `_openai_task` is
never assigned in this flow, so cleanup is exactly one `voice_client.close()`
followed by the Langfuse flush. -/
def cleanupActions : List Action :=
  [Action.closeClient, Action.flushTrace]

/-- The action trace of `handle_stream` on the given inbound frames. -/
def handle_stream_trace (frames : List TwilioFrame) : List Action :=
  Action.connect :: (twilioLoop true frames).1
    ++ [Action.cancelPendingTask, Action.awaitCancelled] ++ cleanupActions

/-! ### Session registry and webhook layer (src/services/gateway/session_manager.py,
src/services/gateway/app.py) -/

/-- The session manager's map from stream SID to session. -/
def Registry : Type := List (String × SessionState)

/-- `SessionManager.remove_session`: `self.sessions.pop(stream_sid, None)`. -/
def remove_session (reg : Registry) (stream_sid : String) : Registry :=
  reg.filter (fun p => p.1 != stream_sid)

/-- `SessionManager.get_session_by_call_sid`: linear scan over the values. -/
def get_session_by_call_sid (reg : Registry) (call_sid : String) :
    Option SessionState :=
  (reg.find? (fun p => p.2.call_sid == call_sid)).map (fun p => p.2)

/-- The TwiML response `twilio_stream_ended` renders: either the dial to
Amazon Connect sending the token as DTMF, or the normal goodbye/hangup. -/
inductive TwimlOut
  | redirectToAgent (token : String)
  | normalGoodbye
deriving DecidableEq, Repr

/-- The `finally` block of `twilio_stream_websocket` (src/services/gateway/app.py
lines 500-508): it only logs — the session is deliberately kept for the
action URL, so the registry is returned unchanged. -/
def websocket_close_registry (reg : Registry) : Registry :=
  reg

/-- `twilio_stream_ended` (src/services/gateway/app.py lines 148-219): look the
session up by call SID; if it exists and `metadata.get("handover_token")` is
truthy, remove the session (guarded by a truthy `stream_sid`) and dial Connect
with the token as DTMF; otherwise remove the session if one was found and end
the call normally.  Returns the updated registry and the rendered TwiML. -/
def twilio_stream_ended (reg : Registry) (call_sid : String) :
    Registry × TwimlOut :=
  match get_session_by_call_sid reg call_sid with
  | some session =>
    match List.lookup ("handover_token") session.metadata with
    | some t =>
      if t = ("") then
        ((if session.stream_sid = ("") then reg
          else remove_session reg session.stream_sid), .normalGoodbye)
      else
        ((if session.stream_sid = ("") then reg
          else remove_session reg session.stream_sid), .redirectToAgent t)
    | none =>
      ((if session.stream_sid = ("") then reg
        else remove_session reg session.stream_sid), .normalGoodbye)
  | none => (reg, .normalGoodbye)

/-! ### Specification-level predicates

Propositional readings of "the transcript contains the word/phrase as a
case-insensitive whole-word match", stated by splitting the text rather than
by re-tracing the search loop, so that the theorems below relate the embedded
code to an independent formulation. -/

/-- The last character of `l`, when it exists, is not a word character. -/
def noWordLast (l : List Char) : Prop :=
  ∀ c, l.getLast? = some c → isWordChar c = false

/-- The first character of `l`, when it exists, is not a word character. -/
def noWordHead (l : List Char) : Prop :=
  ∀ c, l.head? = some c → isWordChar c = false

/-- `s` contains `w` as a whole word: `s` splits as `x ++ w ++ z` with
non-word characters (or nothing) on both sides of `w`. -/
def WordOccurs (s w : List Char) : Prop :=
  ∃ x z, s = x ++ w ++ z ∧ noWordLast x ∧ noWordHead z

/-- `s` contains the phrase `a ... b`: whole-word occurrences of `a` and then
`b`, with only non-newline characters between them. -/
def PairOccurs (s a b : List Char) : Prop :=
  ∃ x y z,
    s = x ++ a ++ (y ++ b ++ z)
    ∧ noWordLast x ∧ noWordHead (y ++ b ++ z)
    ∧ noWordLast (x ++ a ++ y) ∧ noWordHead z
    ∧ ∀ c ∈ y, c ≠ '\n'

/-- Propositional reading of one escalation pattern matching the text. -/
def PatternOccurs (s : List Char) : EscalationPattern → Prop
  | .word w => WordOccurs s w.data
  | .wordPair a b => PairOccurs s a.data b.data

/-- The lowercased transcript matches some pattern of `ESCALATION_KEYWORDS`. -/
def EscalationMatch (t : String) : Prop :=
  ∃ p ∈ ESCALATION_KEYWORDS, PatternOccurs (transcriptChars t) p

/-! ### Concrete scenario fixtures used by witnesses and counterexamples -/

/-- A fresh session as `SessionManager.create_session` builds it for the
escalation scenario: caller +61400000000, empty buffer, empty metadata. -/
def scenarioSession : SessionState :=
  { conversation_id := ("conv-1")
    call_sid := ("CA123456")
    stream_sid := ("ST123456")
    caller_phone := some ("+61400000000")
    status := .active
    start_time := 0
    last_activity := 0
    transcript_buffer := []
    metadata := [] }

/-- A deterministic stand-in for the random digit source. -/
def zeroChoice : Nat → Fin 10 :=
  fun _ => ⟨0, by omega⟩

/-- The escalation scenario run: default settings, keyword reason, CRM
disabled, store write succeeding, empty store, time 0. -/
def scenarioExec :
    Except (StoreErr × SessionState × HandoverStore)
           (SessionState × HandoverStore × String) :=
  execute_escalation defaultSettings scenarioSession .keyword_detected
    zeroChoice .disabled true [] 0

/-- The scenario's successful result (the `.ok` payload of `scenarioExec`). -/
def scenarioOut : SessionState × HandoverStore × String :=
  match scenarioExec with
  | .ok r => r
  | .error _ => (scenarioSession, [], (""))

/-- C6 fixture, success side: CRM ticket creation fails (contact "C1" was
already created), the store write succeeds. -/
def c6OkOut : SessionState × HandoverStore × String :=
  match execute_escalation defaultSettings scenarioSession .keyword_detected
      zeroChoice (.failAtTicket ("C1")) true [] 0 with
  | .ok r => r
  | .error _ => (scenarioSession, [], (""))

/-- C6 fixture, failure side: the same run but with the store write raising. -/
def c6ErrOut : StoreErr × SessionState × HandoverStore :=
  match execute_escalation defaultSettings scenarioSession .keyword_detected
      zeroChoice (.failAtTicket ("C1")) false [] 0 with
  | .error r => r
  | .ok _ => (.clientError, scenarioSession, [])

/-- An already-expired raw item as the Connect Lambda reads it: its
`expires_at` (epoch seconds) is 0, in the past for any positive read time. -/
def expiredLambdaItem : LambdaItem :=
  [ (("token"), .jstr ("1234567890")),
    (("conversation_id"), .jstr ("conv-1")),
    (("expires_at"), .jnum 0),
    (("summary"), .jstr ("s")),
    (("priority"), .jstr ("medium")),
    (("escalation_reason"), .jstr ("keyword_detected")) ]

/-- A Lambda-side store still holding the expired item (TTL purge lagging). -/
def expiredLambdaStore : LambdaStore :=
  [ (("1234567890"), expiredLambdaItem) ]

/-- An expired handover payload for the repository-side expiry check. -/
def expiredPayload : HandoverPayload :=
  { token := ("1234567890")
    conversation_id := ("conv-1")
    created_at := 0
    expires_at := 0
    caller_phone := none
    hubspot_contact_id := none
    hubspot_ticket_id := none
    summary := ("s")
    intent := none
    priority := ("medium")
    escalation_reason := .keyword_detected }

/-- A registry session holding a pending handover token, keyed by its
stream SID. -/
def c5Session : SessionState :=
  { scenarioSession with
      metadata := [ (("handover_token"), ("1234567890")) ] }

/-- A one-session registry for the webhook-layer claim. -/
def c5Registry : Registry :=
  [ (("ST123456"), c5Session) ]

/-- A well-formed Amazon Connect invocation event carrying a valid token. -/
def c10Event : JVal :=
  .jobj [ (("Details"),
    .jobj [ (("Parameters"),
      .jobj [ (("token"), .jstr ("1234567890")) ]) ]) ]

/-! ### Helper lemmas -/

theorem head?_drop_eq (s : List Char) (n : Nat) : (s.drop n).head? = s[n]? := by
  rw [List.head?_eq_getElem?, List.getElem?_drop]
  simp

theorem getLast?_take_eq (s : List Char) (i : Nat) (h0 : i ≠ 0)
    (hi : i ≤ s.length) : (s.take i).getLast? = s[i - 1]? := by
  rw [List.getLast?_eq_getElem?]
  have hlen : (s.take i).length = i := by
    simp only [List.length_take]
    omega
  rw [hlen, List.getElem?_take_of_lt]
  omega

theorem getD_eq_getElem?_space (s : List Char) (n : Nat) :
    s.getD n ' ' = (s[n]?).getD ' ' := by
  simp [List.getD_eq_getElem?_getD]

/-- `boundedAt` unfolded into propositional components. -/
theorem boundedAt_iff (s : List Char) (i : Nat) (w : List Char) :
    boundedAt s i w = true ↔
      (s.drop i).take w.length = w
      ∧ (i = 0 ∨ isWordChar (s.getD (i - 1) ' ') = false)
      ∧ isWordChar (s.getD (i + w.length) ' ') = false := by
  simp [boundedAt, Bool.and_eq_true, Bool.or_eq_true, Bool.not_eq_true',
    and_assoc]

theorem noWordLast_take (s : List Char) (i : Nat) (hi : i ≤ s.length)
    (h : i = 0 ∨ isWordChar (s.getD (i - 1) ' ') = false) :
    noWordLast (s.take i) := by
  intro c hc
  rcases Nat.eq_zero_or_pos i with h0 | h0
  · subst h0
    simp at hc
  · have hg : (s.take i).getLast? = s[i - 1]? := getLast?_take_eq s i (by omega) hi
    rw [hg] at hc
    rcases h with h0' | h
    · omega
    · rw [getD_eq_getElem?_space, hc] at h
      exact h

theorem noWordHead_drop (s : List Char) (n : Nat)
    (h : isWordChar (s.getD n ' ') = false) :
    noWordHead (s.drop n) := by
  intro c hc
  rw [head?_drop_eq] at hc
  rw [getD_eq_getElem?_space, hc] at h
  exact h

theorem left_boundary_append (x rest : List Char) (hx : noWordLast x) :
    x.length = 0 ∨ isWordChar ((x ++ rest).getD (x.length - 1) ' ') = false := by
  rcases Nat.eq_zero_or_pos x.length with h0 | h0
  · exact Or.inl h0
  · right
    have hxne : x ≠ [] := by
      intro hx0
      subst hx0
      simp at h0
    obtain ⟨c, hc⟩ := Option.isSome_iff_exists.mp
      (List.getLast?_isSome.mpr hxne)
    have hcx : (x ++ rest)[x.length - 1]? = some c := by
      rw [List.getElem?_append_left (show x.length - 1 < x.length by omega)]
      rw [List.getLast?_eq_getElem?] at hc
      exact hc
    rw [getD_eq_getElem?_space, hcx]
    exact hx c hc

theorem right_boundary_append (pre z : List Char) (hz : noWordHead z) :
    isWordChar ((pre ++ z).getD pre.length ' ') = false := by
  have hz0 : (pre ++ z)[pre.length]? = z[0]? := by
    rw [List.getElem?_append_right (le_refl pre.length)]
    simp
  rw [getD_eq_getElem?_space, hz0, ← List.head?_eq_getElem?]
  cases hzh : z.head? with
  | none => decide
  | some c => exact hz c hzh

/-- The search loop for `\bw\b` agrees with the split-based reading. -/
theorem wordSearch_iff (s w : List Char) :
    wordSearch s w = true ↔ WordOccurs s w := by
  constructor
  · intro h
    rw [wordSearch, List.any_eq_true] at h
    obtain ⟨i, hi, hb⟩ := h
    rw [List.mem_range] at hi
    have hile : i ≤ s.length := by omega
    rw [boundedAt_iff] at hb
    obtain ⟨htake, hleft, hright⟩ := hb
    refine ⟨s.take i, s.drop (i + w.length), ?_, ?_, ?_⟩
    · have h1 : List.drop i s = w ++ List.drop (i + w.length) s := by
        conv_lhs => rw [← List.take_append_drop w.length (s.drop i)]
        rw [htake, List.drop_drop]
      rw [List.append_assoc]
      conv_lhs => rw [← List.take_append_drop i s]
      rw [h1]
    · intro c hc
      rcases Nat.eq_zero_or_pos i with h0 | h0
      · subst h0
        simp at hc
      · have hg : (s.take i).getLast? = s[i - 1]? :=
          getLast?_take_eq s i (by omega) hile
        rw [hg] at hc
        rcases hleft with h0' | hleft
        · omega
        · rw [getD_eq_getElem?_space, hc] at hleft
          exact hleft
    · intro c hc
      rw [head?_drop_eq] at hc
      rw [getD_eq_getElem?_space, hc] at hright
      exact hright
  · rintro ⟨x, z, rfl, hx, hz⟩
    rw [wordSearch, List.any_eq_true]
    refine ⟨x.length, ?_, ?_⟩
    · rw [List.mem_range]
      have : x.length ≤ (x ++ w ++ z).length := by
        simp [List.length_append]
      omega
    · rw [boundedAt_iff]
      refine ⟨?_, ?_, ?_⟩
      · rw [List.append_assoc, List.drop_left, List.take_left]
      · rcases Nat.eq_zero_or_pos x.length with h0 | h0
        · exact Or.inl h0
        · right
          have hxne : x ≠ [] := by
            intro hx0
            subst hx0
            simp at h0
          obtain ⟨c, hc⟩ := Option.isSome_iff_exists.mp
            (List.getLast?_isSome.mpr hxne)
          have hlt1 : x.length - 1 < (x ++ w).length := by
            simp [List.length_append]
            omega
          have hcx : (x ++ w ++ z)[x.length - 1]? = some c := by
            rw [List.getElem?_append_left hlt1,
              List.getElem?_append_left (show x.length - 1 < x.length by omega)]
            rw [List.getLast?_eq_getElem?] at hc
            exact hc
          rw [getD_eq_getElem?_space, hcx]
          exact hx c hc
      · have hle1 : (x ++ w).length ≤ x.length + w.length := by
          simp [List.length_append]
        have hz0 : (x ++ w ++ z)[x.length + w.length]? = z[0]? := by
          rw [List.getElem?_append_right hle1]
          have h2 : x.length + w.length - (x ++ w).length = 0 := by
            simp [List.length_append]
          rw [h2]
        rw [getD_eq_getElem?_space, hz0, ← List.head?_eq_getElem?]
        cases hzh : z.head? with
        | none => decide
        | some c => exact hz c hzh

/-- The search loop for `\ba\b.*\bb\b` agrees with the split-based reading. -/
theorem wordPairSearch_iff (s a b : List Char) :
    wordPairSearch s a b = true ↔ PairOccurs s a b := by
  constructor
  · intro h
    rw [wordPairSearch, List.any_eq_true] at h
    obtain ⟨i, hi, hb⟩ := h
    rw [List.mem_range] at hi
    rw [Bool.and_eq_true] at hb
    obtain ⟨hbA, hb⟩ := hb
    rw [List.any_eq_true] at hb
    obtain ⟨j, hj, hb⟩ := hb
    rw [List.mem_range] at hj
    rw [Bool.and_eq_true, Bool.and_eq_true] at hb
    obtain ⟨⟨hijd, hall⟩, hbB⟩ := hb
    have hij : i + a.length ≤ j := of_decide_eq_true hijd
    rw [boundedAt_iff] at hbA hbB
    obtain ⟨htakeA, hlA, hrA⟩ := hbA
    obtain ⟨htakeB, hlB, hrB⟩ := hbB
    have hidx : i + a.length + (j - (i + a.length)) = j := by omega
    have hdropI : s.drop i = a ++ s.drop (i + a.length) := by
      conv_lhs => rw [← List.take_append_drop a.length (s.drop i)]
      rw [htakeA, List.drop_drop]
    have hdropIA : s.drop (i + a.length) =
        (s.drop (i + a.length)).take (j - (i + a.length)) ++ s.drop j := by
      conv_lhs =>
        rw [← List.take_append_drop (j - (i + a.length)) (s.drop (i + a.length))]
      rw [List.drop_drop, hidx]
    have hdropJ : s.drop j = b ++ s.drop (j + b.length) := by
      conv_lhs => rw [← List.take_append_drop b.length (s.drop j)]
      rw [htakeB, List.drop_drop]
    have hchain : s.drop (i + a.length) =
        (s.drop (i + a.length)).take (j - (i + a.length))
          ++ (b ++ s.drop (j + b.length)) := by
      conv_lhs => rw [hdropIA]
      conv_lhs => rw [hdropJ]
    refine ⟨s.take i, (s.drop (i + a.length)).take (j - (i + a.length)),
      s.drop (j + b.length), ?_, ?_, ?_, ?_, ?_, ?_⟩
    · have hs : s = s.take i
          ++ (a ++ ((s.drop (i + a.length)).take (j - (i + a.length))
            ++ (b ++ s.drop (j + b.length)))) := by
        conv_lhs => rw [← List.take_append_drop i s]
        conv_lhs => rw [hdropI]
        conv_lhs => rw [hdropIA]
        conv_lhs => rw [hdropJ]
      refine hs.trans ?_
      simp [List.append_assoc]
    · exact noWordLast_take s i (by omega) hlA
    · have h := noWordHead_drop s (i + a.length) hrA
      rw [hchain] at h
      simp only [List.append_assoc]
      exact h
    · have htakeIA : s.take (i + a.length) = s.take i ++ a := by
        rw [List.take_add, htakeA]
      have htakeJ : s.take j = s.take (i + a.length)
          ++ (s.drop (i + a.length)).take (j - (i + a.length)) := by
        conv_lhs => rw [← hidx]
        rw [List.take_add]
      have h := noWordLast_take s j (by omega) hlB
      rw [htakeJ, htakeIA] at h
      exact h
    · exact noWordHead_drop s (j + b.length) hrB
    · rw [List.all_eq_true] at hall
      intro c hc
      simpa using hall c hc
  · rintro ⟨x, y, z, rfl, hx, hyh, hxl, hz, hy⟩
    rw [wordPairSearch, List.any_eq_true]
    have hsh : (x ++ a) ++ ((y ++ b) ++ z) = x ++ (a ++ ((y ++ b) ++ z)) := by
      simp [List.append_assoc]
    have hsh2 : (x ++ a) ++ ((y ++ b) ++ z) = (x ++ a) ++ (y ++ (b ++ z)) := by
      simp [List.append_assoc]
    have hsh3 : (x ++ a) ++ ((y ++ b) ++ z) = ((x ++ a) ++ y) ++ (b ++ z) := by
      simp [List.append_assoc]
    have hsh4 : (x ++ a) ++ ((y ++ b) ++ z) = (((x ++ a) ++ y) ++ b) ++ z := by
      simp [List.append_assoc]
    have hlenxa : (x ++ a).length = x.length + a.length := by
      simp
    have hlenxay : ((x ++ a) ++ y).length = x.length + a.length + y.length := by
      simp
      omega
    refine ⟨x.length, ?_, ?_⟩
    · rw [List.mem_range]
      simp only [List.length_append]
      omega
    · rw [Bool.and_eq_true]
      constructor
      · rw [boundedAt_iff]
        refine ⟨?_, ?_, ?_⟩
        · rw [hsh, List.drop_left, List.take_left]
        · rcases left_boundary_append x (a ++ ((y ++ b) ++ z)) hx with h | h
          · exact Or.inl h
          · right
            rw [hsh]
            exact h
        · have h := right_boundary_append (x ++ a) ((y ++ b) ++ z) hyh
          rw [hlenxa] at h
          exact h
      · rw [List.any_eq_true]
        refine ⟨x.length + a.length + y.length, ?_, ?_⟩
        · rw [List.mem_range]
          simp only [List.length_append]
          omega
        · rw [Bool.and_eq_true, Bool.and_eq_true]
          refine ⟨⟨?_, ?_⟩, ?_⟩
          · simp only [decide_eq_true_eq]
            omega
          · have hidx2 : x.length + a.length + y.length
                - (x.length + a.length) = y.length := by
              omega
            have hd : ((x ++ a) ++ ((y ++ b) ++ z)).drop (x.length + a.length)
                = y ++ (b ++ z) := by
              rw [hsh2, ← hlenxa, List.drop_left]
            rw [hidx2, hd, List.take_left, List.all_eq_true]
            intro c hc
            simpa using hy c hc
          · rw [boundedAt_iff]
            refine ⟨?_, ?_, ?_⟩
            · rw [hsh3, ← hlenxay, List.drop_left, List.take_left]
            · rcases left_boundary_append ((x ++ a) ++ y) (b ++ z) hxl with h | h
              · left
                rw [hlenxay] at h
                exact h
              · right
                rw [hsh3, ← hlenxay]
                exact h
            · have h := right_boundary_append (((x ++ a) ++ y) ++ b) z hz
              have hlen4 : (((x ++ a) ++ y) ++ b).length
                  = x.length + a.length + y.length + b.length := by
                simp
                omega
              rw [hlen4] at h
              rw [hsh4]
              exact h

theorem patternMatches_iff (s : List Char) (p : EscalationPattern) :
    patternMatches s p = true ↔ PatternOccurs s p := by
  cases p with
  | word w => exact wordSearch_iff s w.data
  | wordPair a b => exact wordPairSearch_iff s a.data b.data

theorem escalationKeywordHit_iff (t : String) :
    escalationKeywordHit t = true ↔ EscalationMatch t := by
  rw [escalationKeywordHit, List.any_eq_true]
  constructor
  · rintro ⟨p, hp, hm⟩
    exact ⟨p, hp, (patternMatches_iff _ p).mp hm⟩
  · rintro ⟨p, hp, hm⟩
    exact ⟨p, hp, (patternMatches_iff _ p).mpr hm⟩

/-- To exhibit concrete whole-word occurrences. -/
theorem noWordLast_of (l : List Char)
    (h : isWordChar (l.getLast?.getD ' ') = false) : noWordLast l := by
  intro c hc
  rw [hc] at h
  simpa using h

/-- To exhibit concrete whole-word occurrences. -/
theorem noWordHead_of (l : List Char)
    (h : isWordChar (l.head?.getD ' ') = false) : noWordHead l := by
  intro c hc
  rw [hc] at h
  simpa using h

theorem drop_length_add {α : Type} (l1 l2 : List α) (n : Nat) :
    (l1 ++ l2).drop (l1.length + n) = l2.drop n := by
  induction l1 with
  | nil => simp
  | cons c cs ih => simp [Nat.succ_add, ih]

/-- Truncating to the last 10, appending, and truncating again is the same as
truncating the whole concatenation: the step-wise buffer bound composes. -/
theorem drop_sub_append (l m : List String) :
    (l.drop (l.length - 10) ++ m).drop
        ((l.drop (l.length - 10) ++ m).length - 10)
      = (l ++ m).drop ((l ++ m).length - 10) := by
  rcases le_or_lt l.length 10 with hle | hlt
  · rw [Nat.sub_eq_zero_of_le hle, List.drop_zero]
  · have hsuf : (l.drop (l.length - 10)).length = 10 := by
      rw [List.length_drop]
      omega
    have hL : (l.drop (l.length - 10) ++ m).length = 10 + m.length := by
      rw [List.length_append, hsuf]
    have hR : (l ++ m).length = l.length + m.length := List.length_append l m
    have hsplit : l ++ m = l.take (l.length - 10) ++ (l.drop (l.length - 10) ++ m) := by
      rw [← List.append_assoc, List.take_append_drop]
    rw [hL, hR, hsplit]
    have hpre : (l.take (l.length - 10)).length = l.length - 10 := by
      rw [List.length_take]
      omega
    have hidx : l.length + m.length - 10
        = (l.take (l.length - 10)).length + (10 + m.length - 10) := by
      rw [hpre]
      omega
    rw [hidx, drop_length_add]

/-- A non-matching call appends and truncates: the new buffer is the last 10
of the old buffer with the transcript appended (`drop (len - 10)` subsumes
the code's `if len > 10` guard, since `len ≤ 10` makes the drop count 0). -/
theorem check_buffer_eq (session : SessionState) (t : String)
    (h : escalationKeywordHit t = false) :
    (check_escalation_needed session t).1.transcript_buffer
      = (session.transcript_buffer ++ [t]).drop
          ((session.transcript_buffer ++ [t]).length - 10) := by
  simp only [check_escalation_needed, h, Bool.false_eq_true, if_false]
  split
  · rfl
  · next hl =>
    rw [Nat.sub_eq_zero_of_le (by omega), List.drop_zero]

/-- A matching call returns early: the buffer is untouched. -/
theorem check_buffer_hit (session : SessionState) (t : String)
    (h : escalationKeywordHit t = true) :
    (check_escalation_needed session t).1 = session := by
  simp [check_escalation_needed, h]

/-- Folding non-matching calls: the final buffer is the last 10 of the
initial buffer followed by all transcripts, in order. -/
theorem transcript_fold_spec : ∀ (ts : List String) (session : SessionState),
    session.transcript_buffer.length ≤ 10 →
    (∀ t ∈ ts, escalationKeywordHit t = false) →
    (ts.foldl (fun s t => (check_escalation_needed s t).1) session).transcript_buffer
      = (session.transcript_buffer ++ ts).drop
          ((session.transcript_buffer ++ ts).length - 10) := by
  intro ts
  induction ts with
  | nil =>
    intro session hlen _
    simp [Nat.sub_eq_zero_of_le, hlen]
  | cons t ts ih =>
    intro session hlen hnk
    rw [List.foldl_cons]
    have hstep := check_buffer_eq session t (hnk t (by simp))
    have hlen2 : (check_escalation_needed session t).1.transcript_buffer.length
        ≤ 10 := by
      rw [hstep]
      rw [List.length_drop]
      omega
    have ih2 := ih (check_escalation_needed session t).1 hlen2
      (fun u hu => hnk u (by simp [hu]))
    rw [ih2, hstep]
    have hassoc : session.transcript_buffer ++ t :: ts
        = (session.transcript_buffer ++ [t]) ++ ts := by
      simp
    rw [hassoc]
    exact drop_sub_append (session.transcript_buffer ++ [t]) ts

/-! ### Claim theorems -/

/-- C1, counterexample: the transcript "person" contains none of the claimed
keywords ("agent", "human", "representative", "operator", or the
"speak ... someone" phrase) as a whole-word match, yet the escalation check
returns `(True, KeywordDetected)` — the code also escalates on `\bperson\b`.
The claimed "none of these yields shouldEscalate == false" is therefore
false at this input. -/
theorem c1_person_counterexample :
    (check_escalation_needed scenarioSession ("person")).2.1 = true
    ∧ (check_escalation_needed scenarioSession ("person")).2.2
        = some EscalationReason.keyword_detected
    ∧ ¬ WordOccurs (transcriptChars ("person")) (("agent").data)
    ∧ ¬ WordOccurs (transcriptChars ("person")) (("human").data)
    ∧ ¬ WordOccurs (transcriptChars ("person")) (("representative").data)
    ∧ ¬ WordOccurs (transcriptChars ("person")) (("operator").data)
    ∧ ¬ PairOccurs (transcriptChars ("person")) (("speak").data) (("someone").data) := by
  refine ⟨by decide, by decide, ?_, ?_, ?_, ?_, ?_⟩
  · intro h
    exact absurd ((wordSearch_iff _ _).mpr h) (by decide)
  · intro h
    exact absurd ((wordSearch_iff _ _).mpr h) (by decide)
  · intro h
    exact absurd ((wordSearch_iff _ _).mpr h) (by decide)
  · intro h
    exact absurd ((wordSearch_iff _ _).mpr h) (by decide)
  · intro h
    exact absurd ((wordPairSearch_iff _ _ _).mpr h) (by decide)

/-- C1 (amended): for every session and transcript, the check returns
`(True, KeywordDetected)` iff the lowercased transcript contains one of the
code's eight patterns — the whole words "agent", "human", "representative",
"person", "operator", or the ordered same-line word pairs "help…real",
"speak…someone", "talk…someone" — and returns `(False, None)` otherwise. -/
theorem c1_keyword_escalation (session : SessionState) (t : String) :
    ((check_escalation_needed session t).2
        = (true, some EscalationReason.keyword_detected) ↔ EscalationMatch t)
    ∧ ((check_escalation_needed session t).2 = (false, none)
        ↔ ¬ EscalationMatch t) := by
  have hiff := escalationKeywordHit_iff t
  cases hh : escalationKeywordHit t with
  | true =>
    rw [hh] at hiff
    have hm : EscalationMatch t := hiff.mp rfl
    constructor
    · simp [check_escalation_needed, hh, hm]
    · simp [check_escalation_needed, hh, hm]
  | false =>
    have hm : ¬ EscalationMatch t := by
      intro m
      rw [hiff.mpr m] at hh
      cases hh
    constructor
    · simp [check_escalation_needed, hh, hm]
    · simp [check_escalation_needed, hh, hm]

/-- C1 witness: on "I want to speak to an agent" the characterization fires
concretely, via the whole-word occurrence of "agent". -/
theorem c1_keyword_escalation_witness :
    (check_escalation_needed scenarioSession ("I want to speak to an agent")).2
      = (true, some EscalationReason.keyword_detected) :=
  (c1_keyword_escalation scenarioSession ("I want to speak to an agent")).1.mpr
    ⟨.word ("agent"), by decide,
      ⟨("i want to speak to an ").data, [], by decide,
        noWordLast_of _ (by decide), noWordHead_of _ (by decide)⟩⟩

/-- C7, counterexample: a call whose transcript matches an escalation keyword
returns early and does not append — after evaluating "agent" on a fresh
session the buffer is still empty, not `[ "agent" ]` as "every call appends"
would require. -/
theorem c7_append_counterexample :
    (check_escalation_needed scenarioSession ("agent")).1.transcript_buffer = []
    ∧ scenarioSession.transcript_buffer ++ [("agent")] ≠ [] := by
  refine ⟨by decide, by decide⟩

/-- C7 (amended): a call that detects no keyword appends the transcript and
truncates to the last 10 entries (oldest first dropped); a call that detects
a keyword leaves the session untouched; consequently, starting from a buffer
of at most 10 entries, after any sequence of non-detecting calls the buffer
is the last `min(N+initial, 10)` entries of the appended sequence in
chronological order, so it always has at most 10 elements. -/
theorem c7_transcript_buffer (session : SessionState) (ts : List String) :
    (∀ t, escalationKeywordHit t = false →
      (check_escalation_needed session t).1.transcript_buffer
        = (session.transcript_buffer ++ [t]).drop
            ((session.transcript_buffer ++ [t]).length - 10))
    ∧ (∀ t, escalationKeywordHit t = true →
      (check_escalation_needed session t).1 = session)
    ∧ (session.transcript_buffer.length ≤ 10 →
      (∀ t ∈ ts, escalationKeywordHit t = false) →
      (ts.foldl (fun s t => (check_escalation_needed s t).1)
          session).transcript_buffer
        = (session.transcript_buffer ++ ts).drop
            ((session.transcript_buffer ++ ts).length - 10)
      ∧ (ts.foldl (fun s t => (check_escalation_needed s t).1)
          session).transcript_buffer.length ≤ 10) := by
  refine ⟨fun t ht => check_buffer_eq session t ht,
    fun t ht => check_buffer_hit session t ht, fun hlen hnk => ?_⟩
  have h := transcript_fold_spec ts session hlen hnk
  refine ⟨h, ?_⟩
  rw [h, List.length_drop]
  omega

/-- C7 witness: three benign transcripts on a fresh session leave a buffer of
exactly those three entries in order. -/
theorem c7_transcript_buffer_witness :
    (([("one"), ("two"), ("three")].foldl
        (fun s t => (check_escalation_needed s t).1)
        scenarioSession)).transcript_buffer = [("one"), ("two"), ("three")] := by
  have h := (c7_transcript_buffer scenarioSession
    [("one"), ("two"), ("three")]).2.2 (by decide) (by decide)
  rw [h.1]
  decide

theorem lookup_dictInsert_self {β : Type} (k : String) (v : β)
    (m : List (String × β)) :
    List.lookup k (dictInsert k v m) = some v := by
  simp [dictInsert, List.lookup]

theorem lookup_filter_ne {β : Type} (k : String) (m : List (String × β)) :
    List.lookup k (m.filter (fun p => p.1 != k)) = none := by
  induction m with
  | nil => rfl
  | cons p ps ih =>
    by_cases h : p.1 = k
    · simp [List.filter_cons, h, ih]
    · have hk : (k == p.1) = false := by
        rw [beq_eq_false_iff_ne]
        exact Ne.symm h
      simp [List.filter_cons, h, ih, List.lookup, hk]

theorem digitChar_isDigit : ∀ k : Fin 10, (Nat.digitChar k.val).isDigit = true := by
  decide

theorem generate_token_data (length : Nat) (choice : Nat → Fin 10) :
    (generate_token length choice).data
      = (List.range length).map (fun i => Nat.digitChar (choice i).val) :=
  rfl

theorem generate_token_length (length : Nat) (choice : Nat → Fin 10) :
    (generate_token length choice).length = length := by
  show (generate_token length choice).data.length = length
  rw [generate_token_data, List.length_map, List.length_range]

theorem generate_token_digits (length : Nat) (choice : Nat → Fin 10) :
    (generate_token length choice).data.all Char.isDigit = true := by
  rw [List.all_eq_true]
  intro c hc
  rw [generate_token_data, List.mem_map] at hc
  obtain ⟨i, _, rfl⟩ := hc
  exact digitChar_isDigit (choice i)

/-- C9: for every configured length and every draw of the random source, the
generated token has exactly that many characters and every character is an
ASCII digit. -/
theorem c9_token_format (length : Nat) (choice : Nat → Fin 10) :
    (generate_token length choice).length = length
    ∧ (generate_token length choice).data.all Char.isDigit = true :=
  ⟨generate_token_length length choice, generate_token_digits length choice⟩

/-- C2: whenever `execute_escalation` returns a token, the session has been
marked Escalating, `metadata["handover_token"]` holds exactly the returned
token, the store holds a payload under that token whose escalationReason is
the given reason, and the token is `token_length` many ASCII digits. -/
theorem c2_escalation_postconditions (settings : Settings)
    (session : SessionState) (reason : EscalationReason)
    (choice : Nat → Fin 10) (crm : CrmOutcome) (storeOk : Bool)
    (store : HandoverStore) (now : Int) (s2 : SessionState)
    (st2 : HandoverStore) (tok : String)
    (h : execute_escalation settings session reason choice crm storeOk store now
      = .ok (s2, st2, tok)) :
    s2.status = CallStatus.escalating
    ∧ List.lookup ("handover_token") s2.metadata = some tok
    ∧ (∃ p, List.lookup tok st2 = some p
        ∧ p.escalation_reason = reason ∧ p.token = tok)
    ∧ tok.length = settings.token_length
    ∧ tok.data.all Char.isDigit = true := by
  cases storeOk with
  | false =>
    simp [execute_escalation] at h
  | true =>
    simp only [execute_escalation, if_true, Except.ok.injEq, Prod.mk.injEq] at h
    obtain ⟨h1, h2, h3⟩ := h
    subst h1
    subst h2
    subst h3
    refine ⟨rfl, lookup_dictInsert_self _ _ _, ⟨_, lookup_dictInsert_self _ _ _, rfl, rfl⟩, ?_, ?_⟩
    · exact generate_token_length _ _
    · exact generate_token_digits _ _

/-- C2 witness: the spec's end-to-end scenario — caller +61400000000, the
transcript "I want to speak to an agent" evaluating to
`(True, KeywordDetected)`, a successful execution — yields the claimed
post-state with a 10-digit token. -/
theorem c2_escalation_postconditions_witness :
    (check_escalation_needed scenarioSession ("I want to speak to an agent")).2
      = (true, some EscalationReason.keyword_detected)
    ∧ scenarioExec = Except.ok scenarioOut
    ∧ scenarioOut.1.status = CallStatus.escalating
    ∧ List.lookup ("handover_token") scenarioOut.1.metadata
        = some scenarioOut.2.2
    ∧ (∃ p, List.lookup scenarioOut.2.2 scenarioOut.2.1 = some p
        ∧ p.escalation_reason = EscalationReason.keyword_detected
        ∧ p.token = scenarioOut.2.2)
    ∧ scenarioOut.2.2.length = 10
    ∧ scenarioOut.2.2.data.all Char.isDigit = true := by
  have h := c2_escalation_postconditions defaultSettings scenarioSession
    .keyword_detected zeroChoice .disabled true [] 0
    scenarioOut.1 scenarioOut.2.1 scenarioOut.2.2 rfl
  exact ⟨by decide, rfl, h.1, h.2.1, h.2.2.1, h.2.2.2.1, h.2.2.2.2⟩

/-- C6: CRM outcomes never affect completion — with the store write
succeeding, execution returns a token recorded in both the session metadata
and the store, whatever the CRM block did; with the store write failing, the
`ClientError` propagates and the session the exception leaves behind has its
metadata untouched and the store unchanged. -/
theorem c6_failure_semantics (settings : Settings) (session : SessionState)
    (reason : EscalationReason) (choice : Nat → Fin 10) (crm : CrmOutcome)
    (store : HandoverStore) (now : Int) :
    (∃ s2 st2 tok,
      execute_escalation settings session reason choice crm true store now
        = .ok (s2, st2, tok)
      ∧ List.lookup ("handover_token") s2.metadata = some tok
      ∧ List.lookup tok st2 ≠ none)
    ∧ (∀ e s2 st2,
      execute_escalation settings session reason choice crm false store now
        = .error (e, s2, st2) →
      s2.metadata = session.metadata ∧ st2 = store) := by
  constructor
  · refine ⟨_, _, _, rfl, lookup_dictInsert_self _ _ _, ?_⟩
    rw [lookup_dictInsert_self]
    simp
  · intro e s2 st2 h
    simp only [execute_escalation, Bool.false_eq_true, if_false,
      Except.error.injEq, Prod.mk.injEq] at h
    obtain ⟨h1, h2, h3⟩ := h
    subst h2
    subst h3
    exact ⟨rfl, rfl⟩

/-- C6 witness: with a CRM failure mid-block and a healthy store the
escalation still completes; with a store failure the metadata and store are
unchanged. -/
theorem c6_failure_semantics_witness :
    List.lookup ("handover_token") c6OkOut.1.metadata = some c6OkOut.2.2
    ∧ c6ErrOut.2.1.metadata = scenarioSession.metadata
    ∧ c6ErrOut.2.2 = ([] : HandoverStore) := by
  have h := c6_failure_semantics defaultSettings scenarioSession
    .keyword_detected zeroChoice (.failAtTicket ("C1")) [] 0
  obtain ⟨s2, st2, tok, heq, hm, _⟩ := h.1
  have h12 : (s2, st2, tok) = c6OkOut := by
    have h1 : execute_escalation defaultSettings scenarioSession
        .keyword_detected zeroChoice (.failAtTicket ("C1")) true [] 0
          = Except.ok c6OkOut := rfl
    have h0 := heq.symm.trans h1
    rw [Except.ok.injEq] at h0
    exact h0
  have herr := h.2 c6ErrOut.1 c6ErrOut.2.1 c6ErrOut.2.2 rfl
  refine ⟨?_, herr.1, herr.2⟩
  rw [← h12]
  exact hm

/-- C3, counterexample: the Connect Lambda's payload fetch does not re-check
`expiresAt` — an item whose `expires_at` is 0 (in the past for any read at a
positive time, e.g. 1000) is still returned whenever the store still holds it,
where the claim demands "not found". -/
theorem c3_lambda_returns_expired_item :
    fetch_handover_payload expiredLambdaStore false ("1234567890")
      = some expiredLambdaItem
    ∧ List.lookup ("expires_at") expiredLambdaItem = some (JVal.jnum 0)
    ∧ (0 : Int) < 1000 := by
  exact ⟨rfl, rfl, by decide⟩

/-- C3 (amended): the gateway repository's `get_handover` independently
re-checks `expiresAt` and reports "not found" for an expired record even when
the store still returns the item; the Connect Lambda's fetch performs no such
re-check and returns whatever non-empty item the store yields. -/
theorem c3_read_expiry_paths (store : HandoverStore) (lstore : LambdaStore)
    (now : Int) (token : String) (item : HandoverPayload) (litem : LambdaItem)
    (h1 : List.lookup token store = some item) (h2 : now > item.expires_at)
    (h3 : List.lookup token lstore = some litem) (h4 : litem ≠ []) :
    get_handover store false now token = .ok none
    ∧ fetch_handover_payload lstore false token = some litem := by
  constructor
  · simp [get_handover, h1, h2]
  · simp only [fetch_handover_payload, Bool.false_eq_true, if_false, h3]
    rw [if_neg]
    simp [List.isEmpty_iff, h4]

/-- C3 witness: the amended behaviour at the concrete expired fixtures. -/
theorem c3_read_expiry_paths_witness :
    get_handover [ (("1234567890"), expiredPayload) ] false 1000 ("1234567890")
      = .ok none
    ∧ fetch_handover_payload expiredLambdaStore false ("1234567890")
      = some expiredLambdaItem :=
  c3_read_expiry_paths [ (("1234567890"), expiredPayload) ] expiredLambdaStore
    1000 ("1234567890") expiredPayload expiredLambdaItem rfl (by decide) rfl
    (fun h => nomatch h)

/-- C8: the spec and the validator's own docstring require exactly 10 ASCII
digits, and all the listed vectors behave as claimed — but the code uses
`re.match(r"^\d{10}$", token)`, and Python `$` also matches just before one
trailing newline, so "1234567890\n" (11 characters) is accepted: the code
contradicts its stated contract at that input. -/
theorem c8_validate_token_trailing_newline :
    validate_token ("1234567890\n") = true
    ∧ isExactlyTenDigits ("1234567890\n") = false
    ∧ validate_token ("1234567890") = true
    ∧ validate_token ("123456789") = false
    ∧ validate_token ("12345678901") = false
    ∧ validate_token ("12345abcde") = false
    ∧ validate_token ("") = false
    ∧ validate_token ("123-456-7890") = false := by
  decide

/-- C10: for every event, store state and store health, the Lambda returns a
dict that always carries "success" and "route_to_queue"; the route is always
"escalation" or "fallback"; and it is "escalation" with success `True`
exactly when the event yields a non-empty, format-valid token that resolves
to a stored item — every other case is "fallback" with success `False`. -/
theorem c10_lambda_result_shape (event : JVal) (store : LambdaStore)
    (clientErr : Bool) :
    (List.lookup ("success") (lambda_handler event store clientErr)).isSome = true
    ∧ (List.lookup ("route_to_queue") (lambda_handler event store clientErr)).isSome = true
    ∧ (List.lookup ("route_to_queue") (lambda_handler event store clientErr)
          = some (.jstr ("escalation"))
        ∨ List.lookup ("route_to_queue") (lambda_handler event store clientErr)
          = some (.jstr ("fallback")))
    ∧ (List.lookup ("success") (lambda_handler event store clientErr)
          = some (.jbool true)
        ↔ List.lookup ("route_to_queue") (lambda_handler event store clientErr)
          = some (.jstr ("escalation")))
    ∧ (List.lookup ("route_to_queue") (lambda_handler event store clientErr)
          = some (.jstr ("escalation"))
        ↔ ∃ t, extract_token event = .ok t ∧ t ≠ ("")
            ∧ validate_token t = true
            ∧ (fetch_handover_payload store clientErr t).isSome = true) := by
  cases hext : extract_token event with
  | error e =>
    simp [lambda_handler, hext, List.lookup]
  | ok t =>
    by_cases ht : t = ("")
    · subst ht
      simp [lambda_handler, hext, List.lookup]
    · cases hv : validate_token t with
      | false =>
        simp [lambda_handler, hext, ht, hv, List.lookup]
      | true =>
        cases hf : fetch_handover_payload store clientErr t with
        | none =>
          simp [lambda_handler, hext, ht, hv, hf, List.lookup]
        | some payload =>
          simp [lambda_handler, hext, ht, hv, hf, List.lookup]

/-- C10 witness: a well-formed event with a stored valid token routes to the
escalation queue with success `True`. -/
theorem c10_lambda_result_shape_witness :
    List.lookup ("route_to_queue")
        (lambda_handler c10Event expiredLambdaStore false)
      = some (JVal.jstr ("escalation"))
    ∧ List.lookup ("success") (lambda_handler c10Event expiredLambdaStore false)
      = some (JVal.jbool true) := by
  have h := c10_lambda_result_shape c10Event expiredLambdaStore false
  have hroute := h.2.2.2.2.mpr ⟨("1234567890"), rfl, by decide, by decide, rfl⟩
  exact ⟨hroute, h.2.2.2.1.mpr hroute⟩

/-- The Twilio-side loop only ever calls `send_audio_base64`: every action it
emits is a `sendAudio`. -/
theorem twilioLoop_actions_sendAudio :
    ∀ (frames : List TwilioFrame) (r : Bool) (a : Action),
      a ∈ (twilioLoop r frames).1 → ∃ p, a = Action.sendAudio p := by
  intro frames
  induction frames with
  | nil =>
    intro r a ha
    cases r <;> simp [twilioLoop] at ha
  | cons f fs ih =>
    intro r a ha
    cases r with
    | false => simp [twilioLoop] at ha
    | true =>
      cases f with
      | connected => exact ih true a (by simpa [twilioLoop] using ha)
      | start s c ph => exact ih true a (by simpa [twilioLoop] using ha)
      | stop s => simp [twilioLoop] at ha
      | other e => exact ih true a (by simpa [twilioLoop] using ha)
      | malformed => exact ih true a (by simpa [twilioLoop] using ha)
      | media s po =>
        cases po with
        | none => exact ih true a (by simpa [twilioLoop] using ha)
        | some p =>
          by_cases hp : p = ("")
          · rw [twilioLoop, if_pos hp] at ha
            exact ih true a ha
          · rw [twilioLoop, if_neg hp] at ha
            rcases List.mem_cons.mp ha with rfl | ha2
            · exact ⟨p, rfl⟩
            · exact ih true a ha2

/-- C4: on a stream consisting of a start message, one media frame with a
non-empty payload, and a stop frame, the bridge terminates (the Twilio loop
clears the running flag at the stop frame), the pending AI-side task is
cancelled and awaited, and cleanup invokes the voice client's `close()`
exactly once — the full action trace is connect, one audio forward, cancel,
await, close, flush. -/
theorem c4_bridge_trace (sid cid phone p : String) (hp : p ≠ ("")) :
    handle_stream_trace
        [TwilioFrame.start sid cid phone, TwilioFrame.media sid (some p),
          TwilioFrame.stop sid]
      = [Action.connect, Action.sendAudio p, Action.cancelPendingTask,
          Action.awaitCancelled, Action.closeClient, Action.flushTrace]
    ∧ (twilioLoop true
        [TwilioFrame.start sid cid phone, TwilioFrame.media sid (some p),
          TwilioFrame.stop sid]).2 = false
    ∧ (handle_stream_trace
        [TwilioFrame.start sid cid phone, TwilioFrame.media sid (some p),
          TwilioFrame.stop sid]).count Action.closeClient = 1 := by
  have hloop : twilioLoop true
      [TwilioFrame.start sid cid phone, TwilioFrame.media sid (some p),
        TwilioFrame.stop sid]
      = ([Action.sendAudio p], false) := by
    simp [twilioLoop, hp]
  have htrace : handle_stream_trace
      [TwilioFrame.start sid cid phone, TwilioFrame.media sid (some p),
        TwilioFrame.stop sid]
      = [Action.connect, Action.sendAudio p, Action.cancelPendingTask,
          Action.awaitCancelled, Action.closeClient, Action.flushTrace] := by
    simp [handle_stream_trace, hloop, cleanupActions]
  refine ⟨htrace, by rw [hloop], ?_⟩
  rw [htrace]
  rfl

/-- C4 witness: the trace at a concrete base64 payload. -/
theorem c4_bridge_trace_witness :
    handle_stream_trace
        [TwilioFrame.start ("ST123456") ("CA123456") ("+61400000000"),
          TwilioFrame.media ("ST123456") (some ("dGVzdA==")),
          TwilioFrame.stop ("ST123456")]
      = [Action.connect, Action.sendAudio ("dGVzdA=="),
          Action.cancelPendingTask, Action.awaitCancelled,
          Action.closeClient, Action.flushTrace] :=
  (c4_bridge_trace ("ST123456") ("CA123456") ("+61400000000") ("dGVzdA==")
    (by decide)).1

/-- C5: neither the stream handler (whose possible actions never include a
registry removal) nor the websocket close path removes the session; the
"stream ended" callback reads `metadata["handover_token"]` and, for a session
with a truthy stream SID, removes it from the registry in both the
redirect-with-token branch and the normal-goodbye branch — after which the
session's stream SID no longer resolves. -/
theorem c5_removal_policy (reg : Registry) (call_sid : String)
    (session : SessionState)
    (hfind : get_session_by_call_sid reg call_sid = some session)
    (hsid : session.stream_sid ≠ ("")) :
    (∀ frames sid, Action.removeSession sid ∉ handle_stream_trace frames)
    ∧ websocket_close_registry reg = reg
    ∧ (∀ t, List.lookup ("handover_token") session.metadata = some t →
        t ≠ ("") →
        twilio_stream_ended reg call_sid
          = (remove_session reg session.stream_sid,
              TwimlOut.redirectToAgent t))
    ∧ (List.lookup ("handover_token") session.metadata = none →
        twilio_stream_ended reg call_sid
          = (remove_session reg session.stream_sid, TwimlOut.normalGoodbye))
    ∧ (List.lookup ("handover_token") session.metadata = some ("") →
        twilio_stream_ended reg call_sid
          = (remove_session reg session.stream_sid, TwimlOut.normalGoodbye))
    ∧ List.lookup session.stream_sid (remove_session reg session.stream_sid)
        = none := by
  refine ⟨?_, rfl, ?_, ?_, ?_, lookup_filter_ne session.stream_sid reg⟩
  · intro frames sid hmem
    simp [handle_stream_trace, cleanupActions] at hmem
    obtain ⟨p, hp⟩ := twilioLoop_actions_sendAudio frames true _ hmem
    cases hp
  · intro t hm htne
    simp [twilio_stream_ended, hfind, hm, htne, hsid]
  · intro hm
    simp [twilio_stream_ended, hfind, hm, hsid]
  · intro hm
    simp [twilio_stream_ended, hfind, hm, hsid]

/-- C5 witness: a one-session registry with a pending token redirects with
that token and removes the session. -/
theorem c5_removal_policy_witness :
    twilio_stream_ended c5Registry ("CA123456")
      = (remove_session c5Registry ("ST123456"),
          TwimlOut.redirectToAgent ("1234567890"))
    ∧ List.lookup ("ST123456") (remove_session c5Registry ("ST123456"))
      = none := by
  have h := c5_removal_policy c5Registry ("CA123456") c5Session rfl (by decide)
  exact ⟨h.2.2.1 ("1234567890") rfl (by decide), h.2.2.2.2.2⟩

end VoiceConnect
